import Mathlib

/-!
Shallow embedding of `src/main.rs` of the chatterbox duplex chat tool.

The Rust program keeps an editor state (`App`), a background receiver
thread (`reciever`), a shared message log (`Vec<String>` behind a mutex),
two process-wide atomic booleans (`TERMINATE`, `REDRAW`), an event loop
(`run_app`) and a renderer (`ui`).  Side effects that cross the embedding
boundary are made explicit parameters:

* a mutex acquisition result is a `Bool` (`lockOk`): `true` models
  `Ok(guard)`, `false` models a poisoned-lock `Err`;
* the outcome of `write_all` is a `Bool` (`writeOk`);
* the bytes handed to `write_all` are reported as the `String` whose UTF-8
  encoding they are (UTF-8 encoding is injective, so equalities and
  inequalities of payloads transfer faithfully);
* a Rust panic (e.g. `String::insert` off a char boundary, or
  `.lock().unwrap()` on a poisoned mutex) is modelled by `none` of an
  `Option` result.

Rust strings are modelled as `List Char` where the code indexes into them
(`App.input`), and as Lean `String` where they are only stored and
compared (log entries).  `String.len()` in Rust is a byte count, modelled
by `utf8Len`.
-/

namespace Chatterbox

/-- Byte length of a Rust `String`/`str`: the sum of the UTF-8 sizes of its
characters.  This is what `self.input.len()` returns in the Rust code. -/
def utf8Len (l : List Char) : Nat := (l.map Char.utf8Size).sum

/-- The Unicode `White_Space` code points: exactly the characters removed
by Rust's `str::trim` (which the receiver applies to every record). -/
def isRustWhitespace (c : Char) : Bool :=
  [0x09, 0x0A, 0x0B, 0x0C, 0x0D, 0x20, 0x85, 0xA0, 0x1680,
   0x2000, 0x2001, 0x2002, 0x2003, 0x2004, 0x2005, 0x2006, 0x2007,
   0x2008, 0x2009, 0x200A, 0x2028, 0x2029, 0x202F, 0x205F, 0x3000].contains c.toNat

/-- Rust `str::trim` on a character list: drop `White_Space` characters
from both ends. -/
def rustTrimList (l : List Char) : List Char :=
  ((l.dropWhile isRustWhitespace).reverse.dropWhile isRustWhitespace).reverse

/-- Rust `buf.trim().to_string()` as used in `reciever` (src/main.rs line 49). -/
def rustTrim (s : String) : String :=
  String.mk (rustTrimList s.data)

/-- Modelled from the spec: the spec's §4.2 step 3 says a record is
"trimmed of its trailing line terminator"; this definition follows the
spec's words (drop one trailing `\n`, and a `\r` before it for CRLF) and
exists only to be compared against the source-derived `rustTrim`. -/
def specTrimLineTerminator (l : List Char) : List Char :=
  let l1 := if l.getLast? = some '\n' then l.dropLast else l
  if l1.getLast? = some '\r' then l1.dropLast else l1

/-- `InputMode` from src/main.rs lines 110-113. -/
inductive InputMode
  | Normal
  | Editing
  deriving DecidableEq, Repr

/-- `App` from src/main.rs lines 116-125.  The `Arc<Mutex<Vec<String>>>`
message log is carried as its contents; lock outcomes are explicit
parameters of the operations that take the lock. -/
structure App where
  input : List Char
  cursor_position : Nat
  input_mode : InputMode
  messages : List String
  deriving DecidableEq, Repr

/-- `App::clamp_cursor` (src/main.rs lines 177-179): `clamp(0, self.input.len())`
where `len()` is the byte length; on `usize` this is `min` with the byte length. -/
def App.clamp_cursor (a : App) (new_cursor_pos : Nat) : Nat :=
  min new_cursor_pos (utf8Len a.input)

/-- `App::move_cursor_left` (src/main.rs lines 139-142); `saturating_sub`
is Nat subtraction. -/
def App.move_cursor_left (a : App) : App :=
  { a with cursor_position := a.clamp_cursor (a.cursor_position - 1) }

/-- `App::move_cursor_right` (src/main.rs lines 144-147); `saturating_add 1`
on `usize` is `+ 1` (the cursor stays far below 2^64 because it is clamped
to the buffer length). -/
def App.move_cursor_right (a : App) : App :=
  { a with cursor_position := a.clamp_cursor (a.cursor_position + 1) }

/-- Rust `String::insert(idx, c)`: insert at a BYTE offset.  Returns `none`
exactly when Rust panics: when `idx` is out of range or not on a character
boundary. -/
def insertAtByte : List Char → Nat → Char → Option (List Char)
  | l, 0, c => some (c :: l)
  | [], _ + 1, _ => none
  | x :: xs, i + 1, c =>
    if i + 1 < x.utf8Size then none
    else (insertAtByte xs (i + 1 - x.utf8Size) c).map (fun t => x :: t)

/-- `App::enter_char` (src/main.rs lines 149-153):
`self.input.insert(self.cursor_position, new_char)` then `move_cursor_right`.
`none` models the panic of `String::insert` off a char boundary. -/
def App.enter_char (a : App) (new_char : Char) : Option App :=
  (insertAtByte a.input a.cursor_position new_char).map fun l =>
    App.move_cursor_right { a with input := l }

/-- `App::delete_char` (src/main.rs lines 155-175): character-based
`take`/`skip` around the cursor, then `move_cursor_left`; no-op when the
cursor is at 0. -/
def App.delete_char (a : App) : App :=
  if a.cursor_position ≠ 0 then
    let current_index := a.cursor_position
    let from_left_to_current_index := current_index - 1
    let before_char_to_delete := a.input.take from_left_to_current_index
    let after_char_to_delete := a.input.drop current_index
    App.move_cursor_left { a with input := before_char_to_delete ++ after_char_to_delete }
  else a

/-- `App::reset_cursor` (src/main.rs lines 181-183). -/
def App.reset_cursor (a : App) : App := { a with cursor_position := 0 }

/-- Result of one `App::submit_message` call: the new state, the payload
handed to `write_all` (as the string whose UTF-8 bytes are written), and
which failures were reported via `error!`. -/
structure SubmitResult where
  app : App
  wrote : String
  lockFailed : Bool
  writeFailed : Bool
  deriving DecidableEq, Repr

/-- `App::submit_message` (src/main.rs lines 185-196): push a clone of the
input to the log if the lock is obtained (else only report), attempt
`write_all(self.input.as_bytes())` (a failure is only reported), then
clear the input and reset the cursor.  Note: no newline is appended to the
payload, and the state change does not depend on `writeOk`. -/
def App.submit_message (a : App) (lockOk writeOk : Bool) : SubmitResult :=
  let messages := if lockOk then a.messages ++ [String.mk a.input] else a.messages
  { app := App.reset_cursor { a with messages := messages, input := [] }
    wrote := String.mk a.input
    lockFailed := !lockOk
    writeFailed := !writeOk }

/-- The editor state after pressing `i` in `Normal` mode at startup:
empty buffer, cursor 0, `Editing` mode, empty log. -/
def editInit : App :=
  { input := [], cursor_position := 0, input_mode := InputMode.Editing, messages := [] }

/-- One editor operation, as dispatched by the `Editing` arm of `run_app`
(src/main.rs lines 243-261).  `submit` carries the lock and write outcomes. -/
inductive EditOp
  | ins (c : Char)
  | del
  | left
  | right
  | submit (lockOk writeOk : Bool)

/-- Apply one editor operation; `none` models a panic inside the operation. -/
def applyOp (a : App) : EditOp → Option App
  | .ins c => a.enter_char c
  | .del => some a.delete_char
  | .left => some a.move_cursor_left
  | .right => some a.move_cursor_right
  | .submit lockOk writeOk => some (a.submit_message lockOk writeOk).app

/-- Apply a sequence of editor operations. -/
def applyOps (a : App) : List EditOp → Option App
  | [] => some a
  | op :: ops => (applyOp a op).bind (fun b => applyOps b ops)

/-- Key codes relevant to the `Editing` arm of `run_app`. -/
inductive KeyCode
  | enter
  | char (c : Char)
  | backspace
  | left
  | right
  | esc
  | other

/-- The `InputMode::Editing` key dispatch of `run_app` (src/main.rs lines
243-261) for a key press: returns the new state and, for `Enter`, the
payload written to the socket.  `none` models a panic. -/
def editingDispatch (a : App) (k : KeyCode) (lockOk writeOk : Bool) :
    Option (App × Option String) :=
  match k with
  | .enter =>
    let r := a.submit_message lockOk writeOk
    some (r.app, some r.wrote)
  | .char c => (a.enter_char c).map (fun b => (b, none))
  | .backspace => some (a.delete_char, none)
  | .left => some (a.move_cursor_left, none)
  | .right => some (a.move_cursor_right, none)
  | .esc => some ({ a with input_mode := InputMode.Normal }, none)
  | .other => some (a, none)

/-- One result of `reader.read_line` in `reciever` (src/main.rs line 40):
`data s` is `Ok(size)` with `size > 0` and `s` the record read (line
terminator included), `eof` is `Ok(0)`, `err` is `Err(_)`. -/
inductive ReadEvent
  | data (s : String)
  | eof
  | err
  deriving DecidableEq, Repr

/-- The state the receiver thread interacts with: the shared log and the
two atomics `TERMINATE` and `REDRAW`. -/
structure RecvState where
  log : List String
  terminate : Bool
  redraw : Bool
  deriving DecidableEq, Repr

/-- The `reciever` loop (src/main.rs lines 37-57) run over a list of read
results, each paired with the outcome of `dest.lock()` for that iteration.
The loop exits when `TERMINATE` is observed true; a zero-length read
stores `TERMINATE := true` and breaks; a record is pushed trimmed (and
`REDRAW` set) only when the lock is obtained; a read error is only
reported and the loop retries. -/
def recvRun : RecvState → List (ReadEvent × Bool) → RecvState
  | st, [] => st
  | st, (e, lockOk) :: rest =>
    if st.terminate then st
    else
      match e with
      | .eof => { st with terminate := true }
      | .data s =>
        recvRun
          (if lockOk then { st with log := st.log ++ [rustTrim s], redraw := true } else st)
          rest
      | .err => recvRun st rest

/-- The message-log snapshot taken by `ui` (src/main.rs lines 299-308):
`app.messages.lock().unwrap()` then the window
`lock[lock.len().saturating_sub(height)..lock.len()]`.  The argument is
the lock outcome (`none` = poisoned); the result is `none` exactly when
`.unwrap()` panics. -/
def uiSnapshot (lockResult : Option (List String)) (height : Nat) : Option (List String) :=
  lockResult.map (fun l => l.drop (l.length - height))

/-- One iteration of the `run_app` event loop (src/main.rs lines 220-232)
restricted to the redraw plumbing: `REDRAW.compare_exchange(true, false, ..)`
renders exactly when it succeeds, and `producerSet` tells whether any
producer (a key event at line 232, or the receiver) stored `true` during
the rest of the iteration.  Returns the flag at the next iteration's check
and the number of render passes performed. -/
def loopIter (redraw : Bool) (producerSet : Bool) : Bool × Nat :=
  let afterRender := if redraw then (false, 1) else (redraw, 0)
  (if producerSet then true else afterRender.1, afterRender.2)

end Chatterbox

namespace Chatterbox

/-- Once the loop observes `TERMINATE` true it processes nothing further. -/
theorem recvRun_terminated (st : RecvState) (es : List (ReadEvent × Bool))
    (h : st.terminate = true) : recvRun st es = st := by
  cases es with
  | nil => rfl
  | cons e rest =>
    obtain ⟨ev, lk⟩ := e
    simp [recvRun, h]

/-- The break on a zero-length read: everything after the first `eof` is
never processed. -/
theorem recvRun_eof_break (st : RecvState) (lk : Bool)
    (pre post : List (ReadEvent × Bool)) :
    recvRun st (pre ++ (ReadEvent.eof, lk) :: post) =
      recvRun st (pre ++ [(ReadEvent.eof, lk)]) := by
  induction pre generalizing st with
  | nil =>
    cases hb : st.terminate with
    | true => simp [recvRun, hb]
    | false => simp [recvRun, hb]
  | cons e pre ih =>
    obtain ⟨ev, lk2⟩ := e
    cases hb : st.terminate with
    | true => simp [recvRun, hb]
    | false =>
      cases ev with
      | eof => simp [recvRun, hb]
      | data s => simp only [List.cons_append, recvRun, hb, Bool.false_eq_true,
          if_false]; exact ih _
      | err => simp only [List.cons_append, recvRun, hb, Bool.false_eq_true,
          if_false]; exact ih _

/-- The cursor never exceeds the byte length of the input buffer. -/
def cursorInv (a : App) : Prop := a.cursor_position ≤ utf8Len a.input

/-- `clamp_cursor` always lands at or below the byte length. -/
theorem clamp_cursor_le (a : App) (n : Nat) : a.clamp_cursor n ≤ utf8Len a.input :=
  Nat.min_le_right n (utf8Len a.input)

/-- Every single editor operation preserves the byte-length cursor bound. -/
theorem applyOp_cursorInv (a b : App) (op : EditOp) (ha : cursorInv a)
    (h : applyOp a op = some b) : cursorInv b := by
  cases op with
  | ins c =>
    simp only [applyOp, App.enter_char, Option.map_eq_some'] at h
    obtain ⟨l, _, rfl⟩ := h
    exact clamp_cursor_le _ _
  | del =>
    simp only [applyOp, Option.some_inj] at h
    subst h
    unfold App.delete_char
    by_cases hc : a.cursor_position ≠ 0
    · rw [if_pos hc]
      exact clamp_cursor_le _ _
    · rw [if_neg hc]
      exact ha
  | left =>
    simp only [applyOp, Option.some_inj] at h
    subst h
    exact clamp_cursor_le _ _
  | right =>
    simp only [applyOp, Option.some_inj] at h
    subst h
    exact clamp_cursor_le _ _
  | submit lockOk writeOk =>
    simp only [applyOp, Option.some_inj] at h
    subst h
    exact Nat.zero_le _

/-- The byte-length cursor bound is preserved by any operation sequence. -/
theorem applyOps_cursorInv (ops : List EditOp) (a b : App) (ha : cursorInv a)
    (h : applyOps a ops = some b) : cursorInv b := by
  induction ops generalizing a with
  | nil =>
    simp only [applyOps, Option.some_inj] at h
    subst h
    exact ha
  | cons op ops ih =>
    simp only [applyOps, Option.bind_eq_some] at h
    obtain ⟨m, hm, hrest⟩ := h
    exact ih m (applyOp_cursorInv a m op ha hm) hrest

end Chatterbox

namespace Chatterbox

/-- Receiver appends: with the terminate flag still false, processing n
records under successful locks appends exactly their `str::trim`s in
arrival order. -/
theorem recvRun_data_log (st : RecvState) (rs : List String)
    (h : st.terminate = false) :
    (recvRun st (rs.map (fun s => (ReadEvent.data s, true)))).log =
      st.log ++ rs.map rustTrim := by
  induction rs generalizing st with
  | nil => simp [recvRun]
  | cons s rs ih =>
    have step : recvRun st ((s :: rs).map (fun t => (ReadEvent.data t, true))) =
        recvRun { st with log := st.log ++ [rustTrim s], redraw := true }
          (rs.map (fun t => (ReadEvent.data t, true))) := by
      simp [recvRun, h]
    rw [step, ih { st with log := st.log ++ [rustTrim s], redraw := true } h]
    simp

/-- C1 (counterexample): the receiver stores `"  hello  \n"` as `"hello"`
(Rust `str::trim` strips ALL leading and trailing whitespace), not as
`"  hello  "` as the claim's "trailing line terminator only" reading
predicts. -/
theorem C1_counterexample :
    (recvRun { log := [], terminate := false, redraw := false }
        [(ReadEvent.data "  hello  \n", true)]).log = ["hello"] ∧
    ["hello"] ≠ [String.mk (specTrimLineTerminator "  hello  \n".data)] :=
  ⟨rfl, by decide⟩

/-- C1 (amended): for every sequence of n records read by the receiver
with no local input and no lock failure, the log afterwards equals exactly
those n records each passed through Rust `str::trim` (all leading and
trailing whitespace removed), in arrival order. -/
theorem C1_receiver_appends_trimmed (rs : List String) :
    (recvRun { log := [], terminate := false, redraw := false }
        (rs.map (fun s => (ReadEvent.data s, true)))).log = rs.map rustTrim := by
  rw [recvRun_data_log _ _ rfl]
  rfl

/-- C2 (code bug): on submitting the buffer "hello", the bytes handed to
`write_all` are exactly the UTF-8 of "hello" with NO trailing newline,
whereas the newline-delimited wire format requires "hello\n"; the peer's
split-on-newline reader therefore never completes this message. -/
theorem C2_submit_writes_no_newline :
    (App.submit_message
        { input := "hello".data, cursor_position := 5,
          input_mode := InputMode.Editing, messages := [] } true true).wrote = "hello" ∧
    ("hello" : String) ≠ "hello" ++ "\n" :=
  ⟨rfl, by decide⟩

/-- C3 (code bug): from the empty editing state, typing 'é' leaves the
cursor at byte offset 1, inside the 2-byte UTF-8 encoding of 'é'; the next
insert hits a non-character-boundary offset and `String::insert` panics
(`none`), so the insert operation is not total and does split a multi-byte
code point. -/
theorem C3_insert_not_total :
    (App.enter_char editInit 'é').map App.cursor_position = some 1 ∧
    (App.enter_char editInit 'é').bind (fun b => App.enter_char b 'a') = none :=
  ⟨rfl, rfl⟩

/-- C4 (counterexample): typing 'é' then right-arrow is a reachable
sequence after which the cursor is 2 while the buffer holds 1 character,
so the cursor measured in characters leaves `[0, char length]`. -/
theorem C4_counterexample :
    (applyOps editInit [EditOp.ins 'é', EditOp.right]).map
        (fun a => (a.cursor_position, a.input.length)) = some (2, 1) ∧
    ¬ (2 ≤ 1) :=
  ⟨rfl, by decide⟩

/-- C4 (amended): after every sequence of editor operations from the empty
initial state that completes without a panic, the cursor lies in
`[0, byte length of the input buffer]` (the bound `clamp_cursor` actually
enforces), including for multi-byte inputs. -/
theorem C4_cursor_le_bytes (ops : List EditOp) (b : App)
    (h : applyOps editInit ops = some b) :
    b.cursor_position ≤ utf8Len b.input :=
  applyOps_cursorInv ops editInit b (Nat.le_refl 0) h

/-- C4 witness: the amended bound at the concrete sequence [ins 'h', right]. -/
theorem C4_witness :
    applyOps editInit [EditOp.ins 'h', EditOp.right] =
      some { input := ['h'], cursor_position := 1,
             input_mode := InputMode.Editing, messages := [] } ∧
    ({ input := ['h'], cursor_position := 1,
       input_mode := InputMode.Editing, messages := [] } : App).cursor_position ≤
      utf8Len ({ input := ['h'], cursor_position := 1,
                 input_mode := InputMode.Editing, messages := [] } : App).input :=
  ⟨rfl, C4_cursor_le_bytes [EditOp.ins 'h', EditOp.right] _ rfl⟩

/-- C5 (counterexample): the render snapshot in `ui` calls
`.lock().unwrap()`; on a poisoned lock the unwrap panics (modelled by the
`none` result), so this lock-needing operation is escalated to an abort
rather than skipped. -/
theorem C5_counterexample : uiSnapshot none 5 = none := rfl

/-- C5 (amended): the receiver append and the submit append skip the
operation when the guarded state is found corrupted and never abort: a
poisoned-lock receiver iteration leaves the loop's behaviour exactly as if
the iteration had not pushed, and a poisoned-lock submission keeps the log
unchanged and only reports the failure.  (The render snapshot, by
contrast, panics: see the counterexample.) -/
theorem C5_append_skips_on_poison (st : RecvState) (s : String)
    (rest : List (ReadEvent × Bool)) (a : App) (w : Bool) :
    recvRun st ((ReadEvent.data s, false) :: rest) = recvRun st rest ∧
    (a.submit_message false w).app.messages = a.messages ∧
    (a.submit_message false w).lockFailed = true := by
  refine ⟨?_, rfl, rfl⟩
  cases hb : st.terminate with
  | true => rw [recvRun_terminated _ _ hb, recvRun_terminated _ _ hb]
  | false => simp [recvRun, hb]

/-- C6: a submission whose outbound write fails yields exactly the same
editor state as a successful one — the message is still appended to the
local log (when the lock is obtained), the buffer is cleared, the cursor
reset to 0 and the mode left untouched — and the failure is only reported
(`writeFailed`), never escalated. -/
theorem C6_write_failure_nonfatal (a : App) (lockOk : Bool) :
    (a.submit_message lockOk false).app = (a.submit_message lockOk true).app ∧
    (a.submit_message true false).app.messages = a.messages ++ [String.mk a.input] ∧
    (a.submit_message lockOk false).app.input = [] ∧
    (a.submit_message lockOk false).app.cursor_position = 0 ∧
    (a.submit_message lockOk false).app.input_mode = a.input_mode ∧
    (a.submit_message lockOk false).writeFailed = true :=
  ⟨rfl, rfl, rfl, rfl, rfl, rfl⟩

/-- C7: the termination flag is monotonic (once true, the receiver loop
changes nothing further); processing stops at the first zero-length read,
so any events after it — including repeated zero-length reads — have no
effect on the signal or the log; and a first zero-length read from a
non-terminated state sets the flag (once) and leaves the log unchanged. -/
theorem C7_terminate_monotone :
    (∀ (st : RecvState) (es : List (ReadEvent × Bool)),
        st.terminate = true → recvRun st es = st) ∧
    (∀ (st : RecvState) (lk : Bool) (pre post : List (ReadEvent × Bool)),
        recvRun st (pre ++ (ReadEvent.eof, lk) :: post) =
          recvRun st (pre ++ [(ReadEvent.eof, lk)])) ∧
    (∀ (st : RecvState) (lk : Bool), st.terminate = false →
        recvRun st [(ReadEvent.eof, lk)] = { st with terminate := true }) :=
  ⟨recvRun_terminated, recvRun_eof_break, fun st lk h => by simp [recvRun, h]⟩

/-- C7 witness: the monotonicity and the single effect of a zero-length
read, at concrete states. -/
theorem C7_witness :
    recvRun { log := [], terminate := true, redraw := false }
        [(ReadEvent.data "x", true)] =
      { log := [], terminate := true, redraw := false } ∧
    recvRun { log := [], terminate := false, redraw := false }
        [(ReadEvent.eof, true)] =
      { log := [], terminate := true, redraw := false } :=
  ⟨C7_terminate_monotone.1 _ _ rfl, C7_terminate_monotone.2.2 _ _ rfl⟩

/-- C8: in each event-loop iteration a render happens exactly when the
compare-exchange observes the dirty flag true (one render per successful
clear, none otherwise); the flag at the next check is true exactly when a
producer set it during this iteration, so a set is never dropped, and two
consecutive iterations without a producer set render at most once. -/
theorem C8_render_test_and_clear :
    ∀ producerSet : Bool,
      (loopIter true producerSet).2 = 1 ∧
      (loopIter false producerSet).2 = 0 ∧
      (loopIter true producerSet).1 = producerSet ∧
      (loopIter false producerSet).1 = producerSet ∧
      (loopIter (loopIter true false).1 false).2 = 0 := by
  decide

/-- C9: typing 'h' then 'i' then left-arrow from the empty editing state
gives input "hi" with cursor 1; backspace then gives input "i" with cursor
0; and deleting with the cursor at 0 changes nothing. -/
theorem C9_editing_scenario :
    (applyOps editInit [EditOp.ins 'h', EditOp.ins 'i', EditOp.left]).map
        (fun a => (String.mk a.input, a.cursor_position)) = some ("hi", 1) ∧
    (applyOps editInit
        [EditOp.ins 'h', EditOp.ins 'i', EditOp.left, EditOp.del]).map
        (fun a => (String.mk a.input, a.cursor_position)) = some ("i", 0) ∧
    ∀ a : App, a.cursor_position = 0 → a.delete_char = a := by
  refine ⟨rfl, rfl, ?_⟩
  intro a h
  simp [App.delete_char, h]

/-- C9 witness: the delete-at-0 no-op at the concrete empty editing state. -/
theorem C9_witness : App.delete_char editInit = editInit :=
  C9_editing_scenario.2.2 editInit rfl

/-- C10: pressing Enter in Editing mode with an empty buffer is not
suppressed: the dispatch submits, an empty message is appended to the log,
the payload handed to the socket write is empty (zero bytes), and the
state is reset with the mode still Editing. -/
theorem C10_empty_submit (ms : List String) :
    editingDispatch
        { input := [], cursor_position := 0,
          input_mode := InputMode.Editing, messages := ms }
        KeyCode.enter true true =
      some ({ input := [], cursor_position := 0,
              input_mode := InputMode.Editing, messages := ms ++ [""] },
            some "") :=
  rfl

end Chatterbox
